import Mathlib

/-!
Shallow embedding of the web-search-analysis decision engine of the
`presenton` repository (services/web_search_analysis and its batch endpoint),
together with theorems settling the frozen claims about it.

Embedded source files:
* `services/web_search_analysis/models.py` — trigger taxonomy, request and
  result models (pydantic validation of the confidence bound);
* `services/web_search_analysis/llm_analyzer.py` — response parsing,
  keyword fallback rule, batch runner;
* `services/web_search_analysis/enhanced_llm_client.py` — grounding gate and
  its own keyword fallback;
* `api/v1/ppt/endpoints/web_search_analysis/endpoints.py` — batch endpoint
  summary counters.

Python floats are modelled as rationals (`ℚ`); the literals involved
(0.0, 0.4, 0.6, 1.0) are exactly representable, so no rounding questions
arise for the claims considered. The external LLM call is modelled as an
oracle parameter: a function from the request to either a structured
response mapping or a failure.
-/

namespace Presenton

/-- Python `str.lower` on one character, restricted to the ASCII Latin and
Russian Cyrillic alphabets — the only alphabets occurring in the embedded
keyword lists. Other characters are left unchanged. -/
def pyCharLower (c : Char) : Char :=
  if 'A' ≤ c ∧ c ≤ 'Z' then Char.ofNat (c.toNat + 32)
  else if 0x410 ≤ c.toNat ∧ c.toNat ≤ 0x42F then Char.ofNat (c.toNat + 32)
  else if c.toNat = 0x401 then Char.ofNat 0x451
  else c

/-- Python `str.lower` (see `pyCharLower` for the alphabet coverage). -/
def pyLower (s : String) : String := ⟨s.data.map pyCharLower⟩

/-- Substring test on character lists: does `needle` occur contiguously in
the second argument?  Matches Python `needle in haystack` on `str`. -/
def listSubstr (needle : List Char) : List Char → Bool
  | [] => needle.isEmpty
  | c :: cs => needle.isPrefixOf (c :: cs) || listSubstr needle cs

/-- Python `needle in haystack` for strings (contiguous substring). -/
def pyIn (needle haystack : String) : Bool := listSubstr needle.data haystack.data

/-- `models.py` — `class WebSearchTrigger(Enum)`: the closed trigger
taxonomy. -/
inductive WebSearchTrigger
  | TEMPORAL
  | NEWS
  | STATISTICS
  | CURRENT_EVENTS
  | PRICES
  | RESEARCH
  | TECHNOLOGY
  | FINANCE
  | GENERAL_KNOWLEDGE
deriving DecidableEq, Repr

/-- The `.value` string of each trigger, as in `models.py`. -/
def WebSearchTrigger.value : WebSearchTrigger → String
  | .TEMPORAL => "temporal"
  | .NEWS => "news"
  | .STATISTICS => "statistics"
  | .CURRENT_EVENTS => "current_events"
  | .PRICES => "prices"
  | .RESEARCH => "research"
  | .TECHNOLOGY => "technology"
  | .FINANCE => "finance"
  | .GENERAL_KNOWLEDGE => "general_knowledge"

/-- Python `WebSearchTrigger(value)`: look a string up in the taxonomy;
`none` models the `ValueError` raised on an unknown value. -/
def WebSearchTrigger.ofValue (s : String) : Option WebSearchTrigger :=
  if s = "temporal" then some .TEMPORAL
  else if s = "news" then some .NEWS
  else if s = "statistics" then some .STATISTICS
  else if s = "current_events" then some .CURRENT_EVENTS
  else if s = "prices" then some .PRICES
  else if s = "research" then some .RESEARCH
  else if s = "technology" then some .TECHNOLOGY
  else if s = "finance" then some .FINANCE
  else if s = "general_knowledge" then some .GENERAL_KNOWLEDGE
  else none

/-- `models.py` — `class QueryAnalysisRequest(BaseModel)`.  The
`presentation_context` dict is modelled as an optional association list;
its contents only ever feed prompt text. -/
structure QueryAnalysisRequest where
  user_query : String
  presentation_context : Option (List (String × String)) := none
  sensitivity : String := "medium"
  language : String := "en"
deriving DecidableEq, Repr

/-- `models.py` — `class WebSearchAnalysis(BaseModel)`: the typed analysis
result. -/
structure WebSearchAnalysis where
  needs_web_search : Bool
  confidence : ℚ
  triggers : List WebSearchTrigger
  reasoning : String
  suggested_queries : List String
  alternative_approach : Option String := none
deriving DecidableEq, Repr

/-- Pydantic construction of `WebSearchAnalysis`: the field declaration
`confidence: float = Field(ge=0.0, le=1.0)` makes construction raise a
`ValidationError` (modelled as `Except.error`) when the bound is violated. -/
def WebSearchAnalysis.validate (nws : Bool) (conf : ℚ)
    (trs : List WebSearchTrigger) (reas : String) (sq : List String)
    (alt : Option String) : Except String WebSearchAnalysis :=
  if 0 ≤ conf ∧ conf ≤ 1 then
    Except.ok { needs_web_search := nws, confidence := conf, triggers := trs,
                reasoning := reas, suggested_queries := sq,
                alternative_approach := alt }
  else
    Except.error "ValidationError: confidence must be between 0.0 and 1.0"

/-! ## Fallback rule of the decision engine (`llm_analyzer.py`) -/

/-- `llm_analyzer.py` line 217: `temporal_keywords`. -/
def temporal_keywords : List String :=
  ["current", "latest", "recent", "today", "now", "2024", "2025",
   "текущий", "последний", "недавно"]

/-- `llm_analyzer.py` line 218: `news_keywords`. -/
def news_keywords : List String :=
  ["news", "events", "announcements", "developments",
   "новости", "события", "объявления"]

/-- `llm_analyzer.py` line 219: `stats_keywords`. -/
def stats_keywords : List String :=
  ["statistics", "data", "figures", "analysis", "report",
   "статистика", "данные", "анализ"]

/-- `any(keyword in query for keyword in temporal_keywords)` over the
already lower-cased query. -/
def has_temporal (query : String) : Bool :=
  temporal_keywords.any (fun k => pyIn k query)

/-- `any(keyword in query for keyword in news_keywords)`. -/
def has_news (query : String) : Bool :=
  news_keywords.any (fun k => pyIn k query)

/-- `any(keyword in query for keyword in stats_keywords)`. -/
def has_stats (query : String) : Bool :=
  stats_keywords.any (fun k => pyIn k query)

/-- `llm_analyzer.py` — `LLMWebSearchAnalyzer._fallback_analysis`: the
deterministic keyword fallback rule (lines 212-242). -/
def fallback_analysis (request : QueryAnalysisRequest) : WebSearchAnalysis :=
  let query := pyLower request.user_query
  let ht := has_temporal query
  let hn := has_news query
  let hs := has_stats query
  let needs_search := ht || hn || hs
  { needs_web_search := needs_search
    confidence := if needs_search then (0.6 : ℚ) else (0.4 : ℚ)
    triggers :=
      (if ht then [WebSearchTrigger.TEMPORAL] else []) ++
      (if hn then [WebSearchTrigger.NEWS] else []) ++
      (if hs then [WebSearchTrigger.STATISTICS] else [])
    reasoning := "Fallback analysis based on simple keyword matching"
    suggested_queries := if needs_search then [request.user_query] else []
    alternative_approach := none }

/-! ## Response parsing (`llm_analyzer.py`) -/

/-- The structured mapping returned by a successful LLM call:
`response.get(field, default)` accesses are modelled by `Option` fields. -/
structure LLMResponse where
  needs_web_search : Option Bool := none
  confidence : Option ℚ := none
  triggers : Option (List String) := none
  reasoning : Option String := none
  suggested_queries : Option (List String) := none
  alternative_approach : Option String := none
deriving DecidableEq, Repr

/-- `llm_analyzer.py` — `LLMWebSearchAnalyzer._parse_llm_response`
(lines 182-210): unknown trigger strings are dropped one by one (the inner
`except ValueError` around `WebSearchTrigger(trigger_value)`), missing
fields take defaults, and if the `WebSearchAnalysis` construction itself
raises (confidence bound), the outer `except` returns a degenerate
diagnostic result. -/
def parse_llm_response (response : LLMResponse) : WebSearchAnalysis :=
  let triggers := (response.triggers.getD []).filterMap WebSearchTrigger.ofValue
  match WebSearchAnalysis.validate (response.needs_web_search.getD false)
      (response.confidence.getD 0) triggers (response.reasoning.getD "")
      (response.suggested_queries.getD []) response.alternative_approach with
  | Except.ok a => a
  | Except.error e =>
      { needs_web_search := false, confidence := 0, triggers := [],
        reasoning := "Error parsing LLM response: " ++ e,
        suggested_queries := [], alternative_approach := none }

/-- One LLM structured-generation call: it either returns a mapping or
fails (transport error, timeout, schema rejection). -/
inductive LLMOutcome
  | ok (response : LLMResponse)
  | fail (msg : String)

/-- `llm_analyzer.py` — `LLMWebSearchAnalyzer.analyze_query` (lines 58-88),
with the external LLM call abstracted as the oracle `llm`: parse the
response on success, run the fallback rule on any call failure. -/
def analyze_query (llm : QueryAnalysisRequest → LLMOutcome)
    (request : QueryAnalysisRequest) : WebSearchAnalysis :=
  match llm request with
  | LLMOutcome.ok response => parse_llm_response response
  | LLMOutcome.fail _ => fallback_analysis request

/-! ## Batch runner (`llm_analyzer.py`) and endpoint counters -/

/-- `llm_analyzer.py` — `LLMWebSearchAnalyzer.batch_analyze`
(lines 244-257).  The per-item `try: ... analyze_query ... except:` is
modelled by an engine oracle that may fail (`Except.error` models an
exception escaping `analyze_query`); on failure the fallback result is
substituted and the loop continues. -/
def batch_analyze (engine : QueryAnalysisRequest → Except String WebSearchAnalysis) :
    List QueryAnalysisRequest → List WebSearchAnalysis
  | [] => []
  | r :: rs =>
      (match engine r with
       | Except.ok a => a
       | Except.error _ => fallback_analysis r) :: batch_analyze engine rs

/-- `endpoints.py` lines 66-70: an item counts as a success when
`analysis.reasoning and "Error" not in analysis.reasoning` holds
(non-empty reasoning that does not contain the substring `"Error"`). -/
def success_pred (a : WebSearchAnalysis) : Bool :=
  (a.reasoning != "") && !(pyIn "Error" a.reasoning)

/-- `models.py` — `class BatchAnalysisResponse(BaseModel)`. -/
structure BatchAnalysisResponse where
  results : List WebSearchAnalysis
  total_analyzed : Nat
  success_count : Nat
  error_count : Nat
deriving DecidableEq, Repr

/-- `endpoints.py` — `batch_analyze_queries` (lines 46-79): run the batch
and derive the summary counters by scanning each result's reasoning. -/
def batch_analyze_queries
    (engine : QueryAnalysisRequest → Except String WebSearchAnalysis)
    (queries : List QueryAnalysisRequest) : BatchAnalysisResponse :=
  let analyses := batch_analyze engine queries
  { results := analyses
    total_analyzed := queries.length
    success_count := analyses.countP success_pred
    error_count := analyses.countP (fun a => !(success_pred a)) }

/-! ## Grounding gate (`enhanced_llm_client.py`) -/

/-- `enhanced_llm_client.py` lines 70-71: the gate fallback's
`temporal_keywords` — note the extra `'сейчас'`. -/
def gate_temporal_keywords : List String :=
  ["current", "latest", "recent", "today", "now", "2024", "2025",
   "текущий", "последний", "недавно", "сейчас"]

/-- `enhanced_llm_client.py` lines 72-73: the gate fallback's
`news_keywords`. -/
def gate_news_keywords : List String :=
  ["news", "events", "announcements", "developments",
   "новости", "события", "объявления"]

/-- `enhanced_llm_client.py` lines 74-75: the gate fallback's
`stats_keywords` — note the extra `'отчет'` and `'стаья'`. -/
def gate_stats_keywords : List String :=
  ["statistics", "data", "figures", "analysis", "report",
   "статистика", "данные", "анализ", "отчет", "стаья"]

/-- `enhanced_llm_client.py` — `EnhancedLLMClient._fallback_web_search_decision`
(lines 57-85): keyword OR across the gate's three lists on the lower-cased
query. -/
def fallback_web_search_decision (user_query : String) : Bool :=
  let query_lower := pyLower user_query
  (gate_temporal_keywords.any (fun k => pyIn k query_lower)) ||
  (gate_news_keywords.any (fun k => pyIn k query_lower)) ||
  (gate_stats_keywords.any (fun k => pyIn k query_lower))

/-- `enhanced_llm_client.py` — `EnhancedLLMClient.should_enable_web_grounding`
(lines 18-55): return `false` at once when the provider capability flag
(`self.enable_web_grounding()`) is off; otherwise build a request with
`sensitivity="medium"` (and the model defaults for the other fields), call
the decision engine (modelled by the possibly-failing oracle `engine`), and
return its verdict; on an engine exception fall back to the gate's own
keyword rule. -/
def should_enable_web_grounding (web_grounding_supported : Bool)
    (engine : QueryAnalysisRequest → Except String WebSearchAnalysis)
    (user_query : String)
    (presentation_context : Option (List (String × String))) : Bool :=
  if !web_grounding_supported then
    false
  else
    match engine { user_query := user_query,
                   presentation_context := presentation_context,
                   sensitivity := "medium", language := "en" } with
    | Except.ok a => a.needs_web_search
    | Except.error _ => fallback_web_search_decision user_query

/-! ## Helper lemmas (shared) -/

/-- The batch runner is the elementwise image of the per-item
try/fallback step. -/
lemma batch_analyze_eq_map
    (engine : QueryAnalysisRequest → Except String WebSearchAnalysis) :
    ∀ requests : List QueryAnalysisRequest,
      batch_analyze engine requests =
        requests.map (fun r => match engine r with
          | Except.ok a => a
          | Except.error _ => fallback_analysis r)
  | [] => rfl
  | r :: rs => by simp [batch_analyze, batch_analyze_eq_map engine rs]

/-- Counting a predicate and its negation over a list exhausts the list. -/
lemma countP_add_countP_not {α : Type} (p : α → Bool) :
    ∀ l : List α, l.countP p + l.countP (fun a => !(p a)) = l.length
  | [] => rfl
  | a :: l => by
      by_cases h : p a = true <;>
        simp [List.countP_cons, h, ← countP_add_countP_not p l] <;> omega

/-! ## Claims -/

/-- C1: for every request, the decision engine's fallback rule on the
lower-cased query text returns: `needs_web_search` = OR of the temporal,
news and statistics keyword-membership tests; `confidence` exactly `0.6`
when `needs_web_search` holds and exactly `0.4` otherwise; `triggers` = the
matched categories in the fixed order temporal, news, statistics;
`suggested_queries` = `[query]` when searching and `[]` otherwise; and
`alternative_approach` absent. -/
theorem C1_fallback_rule_fields (request : QueryAnalysisRequest) :
    (fallback_analysis request).needs_web_search =
      (has_temporal (pyLower request.user_query) ||
       has_news (pyLower request.user_query) ||
       has_stats (pyLower request.user_query))
    ∧ (fallback_analysis request).confidence =
        (if (fallback_analysis request).needs_web_search
         then (0.6 : ℚ) else (0.4 : ℚ))
    ∧ (fallback_analysis request).triggers =
        (if has_temporal (pyLower request.user_query)
         then [WebSearchTrigger.TEMPORAL] else []) ++
        (if has_news (pyLower request.user_query)
         then [WebSearchTrigger.NEWS] else []) ++
        (if has_stats (pyLower request.user_query)
         then [WebSearchTrigger.STATISTICS] else [])
    ∧ (fallback_analysis request).suggested_queries =
        (if (fallback_analysis request).needs_web_search
         then [request.user_query] else [])
    ∧ (fallback_analysis request).alternative_approach = none := by
  refine ⟨rfl, ?_, rfl, ?_, rfl⟩ <;> simp [fallback_analysis]

/-- C2: constructing a `WebSearchAnalysis` succeeds exactly when the
confidence lies in `[0, 1]`, and otherwise fails at construction time with
the `ValidationError` kind (returned, not caught internally). -/
theorem C2_confidence_validation (nws : Bool) (conf : ℚ)
    (trs : List WebSearchTrigger) (reas : String) (sq : List String)
    (alt : Option String) :
    (0 ≤ conf ∧ conf ≤ 1 →
      WebSearchAnalysis.validate nws conf trs reas sq alt =
        Except.ok { needs_web_search := nws, confidence := conf,
                    triggers := trs, reasoning := reas,
                    suggested_queries := sq, alternative_approach := alt })
    ∧ (¬(0 ≤ conf ∧ conf ≤ 1) →
      WebSearchAnalysis.validate nws conf trs reas sq alt =
        Except.error "ValidationError: confidence must be between 0.0 and 1.0") := by
  constructor <;> intro h <;> simp [WebSearchAnalysis.validate, h]

/-- Witness for C2: construction succeeds at confidence `1` and fails at
confidence `2`. -/
theorem C2_confidence_validation_witness :
    ((0 : ℚ) ≤ 1 ∧ (1 : ℚ) ≤ 1)
    ∧ WebSearchAnalysis.validate true 1 [] "ok" [] none =
        Except.ok { needs_web_search := true, confidence := 1, triggers := [],
                    reasoning := "ok", suggested_queries := [],
                    alternative_approach := none }
    ∧ ¬((0 : ℚ) ≤ 2 ∧ (2 : ℚ) ≤ 1)
    ∧ WebSearchAnalysis.validate true 2 [] "bad" [] none =
        Except.error "ValidationError: confidence must be between 0.0 and 1.0" :=
  ⟨by decide,
   (C2_confidence_validation true 1 [] "ok" [] none).1 (by decide),
   by decide,
   (C2_confidence_validation true 2 [] "bad" [] none).2 (by decide)⟩

/-- C3 counterexample: an engine exception on a one-item batch substitutes
the fallback result, whose reasoning is exactly the fallback literal
"Fallback analysis based on simple keyword matching" (so it contains that
marker), yet the endpoint counts it as a success (`error_count = 0`),
refuting the claim that containing the fallback literal is what makes an
item count toward `error_count`. -/
theorem C3_counterexample :
    (batch_analyze_queries (fun _ => Except.error "boom")
        [{ user_query := "hello" }]).results =
      [fallback_analysis { user_query := "hello" }]
    ∧ pyIn "Fallback analysis based on simple keyword matching"
        (fallback_analysis { user_query := "hello" }).reasoning = true
    ∧ (batch_analyze_queries (fun _ => Except.error "boom")
        [{ user_query := "hello" }]).error_count = 0
    ∧ (batch_analyze_queries (fun _ => Except.error "boom")
        [{ user_query := "hello" }]).success_count = 1 :=
  ⟨rfl, by decide, by decide, by decide⟩

/-- C3 amended: in the batch summary counters, a result item counts toward
`error_count` if and only if its reasoning is empty or contains the
substring "Error"; all other items (fallback-rule results included) count
toward `success_count`. -/
theorem C3_error_count_rule
    (engine : QueryAnalysisRequest → Except String WebSearchAnalysis)
    (queries : List QueryAnalysisRequest) :
    (batch_analyze_queries engine queries).error_count =
      ((batch_analyze_queries engine queries).results.countP
        (fun a => (a.reasoning == "") || pyIn "Error" a.reasoning))
    ∧ (batch_analyze_queries engine queries).success_count =
      ((batch_analyze_queries engine queries).results.countP
        (fun a => (a.reasoning != "") && !(pyIn "Error" a.reasoning))) := by
  constructor
  · simp only [batch_analyze_queries]
    apply List.countP_congr
    intro a _
    simp [success_pred, Bool.not_and, Bool.not_not, bne]
  · rfl

/-- C4 counterexample: on the query "сейчас" the grounding gate's fallback
answers `true` (its temporal list contains the extra keyword `'сейчас'`),
while the decision engine's fallback rule answers `false` — the two keyword
rules are not extensionally equal. -/
theorem C4_counterexample :
    fallback_web_search_decision "сейчас" = true
    ∧ (fallback_analysis { user_query := "сейчас" }).needs_web_search = false := by
  decide

/-- C4 amended: the gate's fallback keyword lists extend the decision
engine's (identical news list; temporal list plus `'сейчас'`; statistics
list plus `'отчет'` and `'стаья'`), so whenever the engine's fallback rule
decides that search is needed, the gate's fallback also answers `true` —
but not conversely. -/
theorem C4_gate_extends_engine_fallback :
    gate_news_keywords = news_keywords
    ∧ gate_temporal_keywords = temporal_keywords ++ ["сейчас"]
    ∧ gate_stats_keywords = stats_keywords ++ ["отчет", "стаья"]
    ∧ ∀ r : QueryAnalysisRequest,
        (fallback_analysis r).needs_web_search = true →
          fallback_web_search_decision r.user_query = true := by
  refine ⟨rfl, rfl, rfl, ?_⟩
  intro r h
  simp only [fallback_analysis] at h
  simp only [fallback_web_search_decision,
    show gate_temporal_keywords = temporal_keywords ++ ["сейчас"] from rfl,
    show gate_news_keywords = news_keywords from rfl,
    show gate_stats_keywords = stats_keywords ++ ["отчет", "стаья"] from rfl,
    List.any_append, has_temporal, has_news, has_stats] at h ⊢
  cases ht : temporal_keywords.any (fun k => pyIn k (pyLower r.user_query)) <;>
    cases hn : news_keywords.any (fun k => pyIn k (pyLower r.user_query)) <;>
      cases hs : stats_keywords.any (fun k => pyIn k (pyLower r.user_query)) <;>
        simp_all

/-- Witness for the amended C4: on "latest" the engine's fallback wants
search and the gate's fallback agrees. -/
theorem C4_gate_extends_engine_fallback_witness :
    (fallback_analysis { user_query := "latest" }).needs_web_search = true
    ∧ fallback_web_search_decision "latest" = true :=
  ⟨by decide,
   C4_gate_extends_engine_fallback.2.2.2 { user_query := "latest" } (by decide)⟩

/-- C5 counterexample: a response whose confidence is out of range (`2`)
but which carries the valid trigger string "temporal" is parsed into a
result whose `triggers` is empty — the valid trigger is *not* kept, because
the whole construction falls into the parse-failure branch.  This refutes
the claim's universal "keeping every valid trigger present". -/
theorem C5_counterexample :
    WebSearchTrigger.ofValue "temporal" = some WebSearchTrigger.TEMPORAL
    ∧ (parse_llm_response
        { confidence := some 2, triggers := some ["temporal"] }).triggers = [] := by
  decide

/-- C5 amended: for every response mapping whose confidence value (the
present value, or the default `0` when absent) lies in `[0, 1]`, the parser
drops each trigger string outside the taxonomy individually while keeping
every valid trigger, and fills missing fields with the claimed defaults
(`needs_web_search := false`, `confidence := 0`, `reasoning := ""`,
`suggested_queries := []`, `alternative_approach` absent), without raising
to the caller (the parse function is total). -/
theorem C5_parse_defaults (response : LLMResponse)
    (h : 0 ≤ response.confidence.getD 0 ∧ response.confidence.getD 0 ≤ 1) :
    (parse_llm_response response =
      { needs_web_search := response.needs_web_search.getD false
        confidence := response.confidence.getD 0
        triggers := (response.triggers.getD []).filterMap WebSearchTrigger.ofValue
        reasoning := response.reasoning.getD ""
        suggested_queries := response.suggested_queries.getD []
        alternative_approach := response.alternative_approach })
    ∧ ∀ s ∈ response.triggers.getD [], ∀ t,
        WebSearchTrigger.ofValue s = some t →
          t ∈ (parse_llm_response response).triggers := by
  constructor
  · simp [parse_llm_response, WebSearchAnalysis.validate, h]
  · intro s hs t ht
    simp [parse_llm_response, WebSearchAnalysis.validate, h]
    exact ⟨s, hs, ht⟩

/-- Witness for the amended C5: a response with no confidence, an unknown
trigger "bogus_category" next to the valid "temporal", and reasoning "r"
parses to the defaults with only the valid trigger kept. -/
theorem C5_parse_defaults_witness :
    ((0 : ℚ) ≤ (({ triggers := some ["bogus_category", "temporal"],
                   reasoning := some "r" } : LLMResponse).confidence.getD 0)
      ∧ (({ triggers := some ["bogus_category", "temporal"],
            reasoning := some "r" } : LLMResponse).confidence.getD 0) ≤ 1)
    ∧ parse_llm_response
        { triggers := some ["bogus_category", "temporal"],
          reasoning := some "r" } =
      { needs_web_search := false, confidence := 0,
        triggers := [WebSearchTrigger.TEMPORAL],
        reasoning := "r", suggested_queries := [],
        alternative_approach := none } := by
  refine ⟨by decide, ?_⟩
  have h := (C5_parse_defaults
    { triggers := some ["bogus_category", "temporal"],
      reasoning := some "r" } (by decide)).1
  rw [h]
  decide

/-- C6: whenever the confidence carried by (or defaulted into) a response
violates the bound, the parser returns the degenerate diagnostic result —
no search, confidence `0`, empty triggers, reasoning a fixed diagnostic
string embedding the parse error — which is distinct from the keyword
fallback rule's result (different reasoning literal, no keyword matching
involved: the query is not even an input of the parser). -/
theorem C6_parse_failure_result (response : LLMResponse)
    (h : ¬(0 ≤ response.confidence.getD 0 ∧ response.confidence.getD 0 ≤ 1)) :
    parse_llm_response response =
      { needs_web_search := false, confidence := 0, triggers := [],
        reasoning := "Error parsing LLM response: " ++
          "ValidationError: confidence must be between 0.0 and 1.0",
        suggested_queries := [], alternative_approach := none }
    ∧ (parse_llm_response response).reasoning ≠
        "Fallback analysis based on simple keyword matching" := by
  have he : parse_llm_response response =
      { needs_web_search := false, confidence := 0, triggers := [],
        reasoning := "Error parsing LLM response: " ++
          "ValidationError: confidence must be between 0.0 and 1.0",
        suggested_queries := [], alternative_approach := none } := by
    simp [parse_llm_response, WebSearchAnalysis.validate, h]
  exact ⟨he, by rw [he]; decide⟩

/-- Witness for C6: a response whose confidence is `2` yields exactly the
degenerate diagnostic result. -/
theorem C6_parse_failure_result_witness :
    ¬((0 : ℚ) ≤ (({ confidence := some 2 } : LLMResponse).confidence.getD 0)
        ∧ (({ confidence := some 2 } : LLMResponse).confidence.getD 0) ≤ 1)
    ∧ parse_llm_response { confidence := some 2 } =
        { needs_web_search := false, confidence := 0, triggers := [],
          reasoning := "Error parsing LLM response: " ++
            "ValidationError: confidence must be between 0.0 and 1.0",
          suggested_queries := [], alternative_approach := none } :=
  ⟨by decide, (C6_parse_failure_result { confidence := some 2 } (by decide)).1⟩

/-- C7: the batch runner maps each request to its engine result, or to the
fallback-rule result when the engine raises on that item, preserving order
and length, never aborting; the empty batch returns the empty list. -/
theorem C7_batch_shape
    (engine : QueryAnalysisRequest → Except String WebSearchAnalysis)
    (requests : List QueryAnalysisRequest) :
    batch_analyze engine requests =
      requests.map (fun r => match engine r with
        | Except.ok a => a
        | Except.error _ => fallback_analysis r)
    ∧ (batch_analyze engine requests).length = requests.length
    ∧ batch_analyze engine ([] : List QueryAnalysisRequest) = [] := by
  refine ⟨batch_analyze_eq_map engine requests, ?_, rfl⟩
  rw [batch_analyze_eq_map engine requests]
  exact List.length_map requests _

/-- C8: the grounding gate returns `false` for every engine and query when
the provider capability flag is off (so the decision engine's verdict is
never consulted), and when the flag is on and the engine call succeeds it
forwards a request with `sensitivity = "medium"` and returns exactly the
engine's `needs_web_search` field. -/
theorem C8_gate_behavior
    (engine : QueryAnalysisRequest → Except String WebSearchAnalysis)
    (user_query : String) (ctx : Option (List (String × String))) :
    (should_enable_web_grounding false engine user_query ctx = false)
    ∧ (∀ a, engine { user_query := user_query,
                     presentation_context := ctx,
                     sensitivity := "medium",
                     language := "en" } = Except.ok a →
        should_enable_web_grounding true engine user_query ctx =
          a.needs_web_search) := by
  constructor
  · simp [should_enable_web_grounding]
  · intro a ha
    simp [should_enable_web_grounding, ha]

/-- Witness for C8: with the capability flag off the gate answers `false`
even for an engine that always fails; with the flag on it forwards the
engine's positive verdict. -/
theorem C8_gate_behavior_witness :
    should_enable_web_grounding false
      (fun _ => Except.error "transport down") "latest news" none = false
    ∧ should_enable_web_grounding true
        (fun _ => Except.ok { needs_web_search := true, confidence := 1,
                              triggers := [], reasoning := "model verdict",
                              suggested_queries := [],
                              alternative_approach := none })
        "any query" none = true :=
  ⟨(C8_gate_behavior (fun _ => Except.error "transport down")
      "latest news" none).1,
   (C8_gate_behavior
      (fun _ => Except.ok { needs_web_search := true, confidence := 1,
                            triggers := [], reasoning := "model verdict",
                            suggested_queries := [],
                            alternative_approach := none })
      "any query" none).2
     { needs_web_search := true, confidence := 1, triggers := [],
       reasoning := "model verdict", suggested_queries := [],
       alternative_approach := none } rfl⟩

/-- C9: the fallback rule is a deterministic pure function of the query
text — two requests with identical `user_query` yield identical
`needs_web_search`, `confidence` and `triggers` (whatever their context,
sensitivity and language). -/
theorem C9_fallback_deterministic (r₁ r₂ : QueryAnalysisRequest)
    (h : r₁.user_query = r₂.user_query) :
    (fallback_analysis r₁).needs_web_search =
      (fallback_analysis r₂).needs_web_search
    ∧ (fallback_analysis r₁).confidence = (fallback_analysis r₂).confidence
    ∧ (fallback_analysis r₁).triggers = (fallback_analysis r₂).triggers := by
  simp [fallback_analysis, h]

/-- Witness for C9: two requests sharing the query "x" but differing in
every other field produce the same verdict fields. -/
theorem C9_fallback_deterministic_witness :
    (fallback_analysis { user_query := "x", presentation_context := none,
                         sensitivity := "low", language := "en" }).needs_web_search =
      (fallback_analysis { user_query := "x", presentation_context := some [],
                           sensitivity := "high", language := "ru" }).needs_web_search
    ∧ (fallback_analysis { user_query := "x", presentation_context := none,
                           sensitivity := "low", language := "en" }).confidence =
      (fallback_analysis { user_query := "x", presentation_context := some [],
                           sensitivity := "high", language := "ru" }).confidence
    ∧ (fallback_analysis { user_query := "x", presentation_context := none,
                           sensitivity := "low", language := "en" }).triggers =
      (fallback_analysis { user_query := "x", presentation_context := some [],
                           sensitivity := "high", language := "ru" }).triggers :=
  C9_fallback_deterministic
    { user_query := "x", presentation_context := none,
      sensitivity := "low", language := "en" }
    { user_query := "x", presentation_context := some [],
      sensitivity := "high", language := "ru" } rfl

/-- C10: the endpoint's counters always satisfy
`success_count + error_count = total_analyzed = length of results`, and a
result with empty reasoning is never counted as a success (only non-empty
reasoning not containing "Error" counts). -/
theorem C10_counter_invariant
    (engine : QueryAnalysisRequest → Except String WebSearchAnalysis)
    (queries : List QueryAnalysisRequest) :
    (batch_analyze_queries engine queries).success_count +
        (batch_analyze_queries engine queries).error_count =
      (batch_analyze_queries engine queries).total_analyzed
    ∧ (batch_analyze_queries engine queries).total_analyzed =
        (batch_analyze_queries engine queries).results.length
    ∧ ∀ a : WebSearchAnalysis, a.reasoning = "" → success_pred a = false := by
  have hlen : (batch_analyze engine queries).length = queries.length := by
    rw [batch_analyze_eq_map engine queries]
    exact List.length_map queries _
  refine ⟨?_, ?_, ?_⟩
  · simp only [batch_analyze_queries]
    rw [countP_add_countP_not success_pred (batch_analyze engine queries), hlen]
  · simp only [batch_analyze_queries]
    omega
  · intro a h
    simp [success_pred, h]

/-- Witness for C10: the counters add up on a concrete failing one-item
batch, and the all-empty result is counted as an error. -/
theorem C10_counter_invariant_witness :
    (batch_analyze_queries (fun _ => Except.error "boom")
        [{ user_query := "q" }]).success_count +
      (batch_analyze_queries (fun _ => Except.error "boom")
        [{ user_query := "q" }]).error_count =
      (batch_analyze_queries (fun _ => Except.error "boom")
        [{ user_query := "q" }]).total_analyzed
    ∧ ({ needs_web_search := false, confidence := 0, triggers := [],
         reasoning := "", suggested_queries := [],
         alternative_approach := none } : WebSearchAnalysis).reasoning = ""
    ∧ success_pred { needs_web_search := false, confidence := 0, triggers := [],
                     reasoning := "", suggested_queries := [],
                     alternative_approach := none } = false :=
  ⟨(C10_counter_invariant (fun _ => Except.error "boom")
      [{ user_query := "q" }]).1,
   rfl,
   (C10_counter_invariant (fun _ => Except.error "boom") []).2.2
     { needs_web_search := false, confidence := 0, triggers := [],
       reasoning := "", suggested_queries := [],
       alternative_approach := none } rfl⟩

end Presenton
